import Mathlib

/-!
# Document session controller of the Qt text editor

Shallow embedding of the document life cycle implemented by the class
`MainWindow` in `src/mainwindow.cpp`: the dirty flag, the current file
path, the discard gate and the file read and write wrappers.

Modelling conventions.

* The content of the `QTextEdit` widget is the plain text returned by
  `toPlainText()`, a `String`.
* The file store maps a path to the text held by the file at that path,
  `none` when no file exists there.  `QTextStream` writing and reading are
  taken to store and return the text verbatim.
* Every handler invocation receives an `Env`: the answers the modal
  dialogs give during that invocation and the outcome of `QFile::open`.
  Each handler shows each dialog at most once and opens at most one file
  for writing and one for reading, so one answer per dialog suffices.
* Calls to the toolkit that are visible to the user or to the file store
  are recorded, in program order, in the `log` of the `World`.
-/

set_option autoImplicit false

namespace TextEditor

/-- The buttons offered by the prompt of `maybeSave`. -/
inductive StandardButton where
  | Save
  | Discard
  | Cancel
  deriving DecidableEq

/-- Toolkit calls a handler performs, recorded in program order. -/
inductive Effect where
  /-- The prompt of `maybeSave`: `QMessageBox::warning` with Save, Discard and Cancel. -/
  | discardPrompt
  /-- The dialog `QFileDialog::getOpenFileName` is shown. -/
  | openDialog
  /-- The dialog `QFileDialog::getSaveFileName` is shown. -/
  | saveDialog
  /-- The warning "Cannot read file" of `loadFile`. -/
  | readWarning (fileName : String)
  /-- The warning "Cannot write file" of `saveFile`. -/
  | writeWarning (fileName : String)
  /-- The statement `out << textEdit->toPlainText()` on the file opened at `fileName`. -/
  | wrote (fileName : String) (text : String)
  /-- The statement `textEdit->setPlainText(in.readAll())` on the file at `fileName`. -/
  | loaded (fileName : String)
  /-- The statement `textEdit->clear()`. -/
  | cleared
  /-- A call of `statusBar()->showMessage`. -/
  | statusMessage (msg : String)
  /-- A call of `writeSettings()`. -/
  | settingsWritten
  deriving DecidableEq

/-- The members of `MainWindow` the document handlers read and assign. -/
structure MainWindow where
  /-- Plain text held by the `textEdit` widget. -/
  textEdit : String
  currentFile : String
  isModified : Bool
  /-- Value last passed to `setWindowModified`. -/
  windowModified : Bool
  /-- Value last passed to `setWindowFilePath`. -/
  windowFilePath : String

/-- The window together with the file store and the record of toolkit calls. -/
structure World where
  win : MainWindow
  disk : String → Option String
  log : List Effect

/-- What the outside answers during one handler invocation. -/
structure Env where
  /-- Button pressed on the prompt of `maybeSave`. -/
  button : StandardButton
  /-- Result of `getOpenFileName`, empty when the dialog is dismissed. -/
  openFileName : String
  /-- Result of `getSaveFileName`, empty when the dialog is dismissed. -/
  saveFileName : String
  /-- Whether `QFile::open(WriteOnly | Text)` succeeds on a path. -/
  canWrite : String → Bool
  /-- Whether the permissions let `QFile::open(ReadOnly | Text)` succeed on
  an existing file at a path. -/
  canRead : String → Bool

/-- Append toolkit calls to the record. -/
def World.emit (w : World) (es : List Effect) : World :=
  { w with log := w.log ++ es }

/-- The lambda connected to `QTextDocument::contentsChanged` in the
constructor. -/
def contentsChanged (m : MainWindow) : MainWindow :=
  { m with isModified := true, windowModified := true }

/-- Embedding of `MainWindow::setCurrentFile`.  The modified flag of the
`QTextDocument`, also reset there, is read by no handler and is left out. -/
def setCurrentFile (fileName : String) (m : MainWindow) : MainWindow :=
  { m with
    currentFile := fileName
    isModified := false
    windowModified := false
    windowFilePath := if fileName = "" then "untitled.txt" else fileName }

/-- The state the constructor leaves: empty widget, `setCurrentFile("")`. -/
def initialWindow : MainWindow :=
  setCurrentFile ""
    { textEdit := "", currentFile := "", isModified := false,
      windowModified := false, windowFilePath := "" }

/-- The application right after start, over a given file store. -/
def initialWorld (disk : String → Option String) : World :=
  { win := initialWindow, disk := disk, log := [] }

/-- Modelled from the spec: `QFile` and `QTextStream` belong to the toolkit
and are not part of the sources; "`open` reads the entire file into the
buffer" as plain text.  Outcome of `file.open(QFile::ReadOnly | QFile::Text)`
followed by `in.readAll()`: the text of the file, or `none` when the open
fails (no file at the path, or no permission). -/
def readAll (env : Env) (disk : String → Option String) (fileName : String) :
    Option String :=
  if env.canRead fileName then disk fileName else none

/-- Modelled from the spec: `QFile` and `QTextStream` belong to the toolkit
and are not part of the sources; "`save`/`saveAs` write the entire buffer
back verbatim".  The file store after the text was written to the file at
`fileName`, replacing what the file held. -/
def writeAll (disk : String → Option String) (fileName text : String) :
    String → Option String :=
  fun p => if p = fileName then some text else disk p

/-- Embedding of `MainWindow::loadFile`. -/
def loadFile (env : Env) (fileName : String) (w : World) : World :=
  match readAll env w.disk fileName with
  | none => w.emit [Effect.readWarning fileName]
  | some text =>
    { win := setCurrentFile fileName
        (contentsChanged { w.win with textEdit := text })
      disk := w.disk
      log := w.log ++ [Effect.loaded fileName, Effect.statusMessage "File loaded"] }

/-- Embedding of `MainWindow::saveFile`. -/
def saveFile (env : Env) (fileName : String) (w : World) : Bool × World :=
  if env.canWrite fileName = false then
    (false, w.emit [Effect.writeWarning fileName])
  else
    (true,
      { win := setCurrentFile fileName w.win
        disk := writeAll w.disk fileName w.win.textEdit
        log := w.log ++
          [Effect.wrote fileName w.win.textEdit, Effect.statusMessage "File saved"] })

/-- Embedding of `MainWindow::saveAsFile`: the result of `saveFile` is dropped and `true`
is returned. -/
def saveAsFile (env : Env) (w : World) : Bool × World :=
  let w1 := w.emit [Effect.saveDialog]
  let fileName := env.saveFileName
  if fileName ≠ "" then
    (true, (saveFile env fileName w1).2)
  else
    (true, w1)

/-- Embedding of `MainWindow::saveFileSlot`: the results of `saveAsFile` and `saveFile`
are dropped and `true` is returned. -/
def saveFileSlot (env : Env) (w : World) : Bool × World :=
  if w.win.currentFile = "" then
    (true, (saveAsFile env w).2)
  else
    (true, (saveFile env w.win.currentFile w).2)

/-- Embedding of `MainWindow::maybeSave`. -/
def maybeSave (env : Env) (w : World) : Bool × World :=
  if w.win.isModified = false then
    (true, w)
  else
    let w1 := w.emit [Effect.discardPrompt]
    match env.button with
    | StandardButton.Save => saveFileSlot env w1
    | StandardButton.Cancel => (false, w1)
    | _ => (true, w1)

/-- Embedding of `MainWindow::newFile`. -/
def newFile (env : Env) (w : World) : World :=
  let r := maybeSave env w
  if r.1 then
    let w1 := r.2
    { win := setCurrentFile "" (contentsChanged { w1.win with textEdit := "" })
      disk := w1.disk
      log := w1.log ++ [Effect.cleared] }
  else
    r.2

/-- Embedding of `MainWindow::openFile`. -/
def openFile (env : Env) (w : World) : World :=
  let r := maybeSave env w
  if r.1 then
    let w1 := r.2.emit [Effect.openDialog]
    let fileName := env.openFileName
    if fileName ≠ "" then loadFile env fileName w1 else w1
  else
    r.2

/-- Embedding of `MainWindow::closeEvent`; the Boolean is `true` when the event is
accepted and `false` when it is ignored. -/
def closeEvent (env : Env) (w : World) : Bool × World :=
  let r := maybeSave env w
  if r.1 then
    (true, r.2.emit [Effect.settingsWritten])
  else
    (false, r.2)

/-- The user changes the document to `text`; the widget emits
`contentsChanged`. -/
def editText (text : String) (w : World) : World :=
  { w with win := contentsChanged { w.win with textEdit := text } }

/-- User events of the document life cycle, each with the answers the
outside gives while its handler runs. -/
inductive Event where
  | edit (text : String)
  | newFile (env : Env)
  | openFile (env : Env)
  | saveFileSlot (env : Env)
  | saveAsFile (env : Env)

/-- The handler the toolkit invokes for an event. -/
def step (e : Event) (w : World) : World :=
  match e with
  | Event.edit text => editText text w
  | Event.newFile env => newFile env w
  | Event.openFile env => openFile env w
  | Event.saveFileSlot env => (saveFileSlot env w).2
  | Event.saveAsFile env => (saveAsFile env w).2

/-- The handlers of a sequence of events, run in order. -/
def run (es : List Event) (w : World) : World :=
  es.foldl (fun acc e => step e acc) w

/-- Toolkit calls that go with an assignment of `false` to `isModified`: a
completed write, a completed load, a cleared widget. -/
def Effect.resets : Effect → Bool
  | Effect.wrote _ _ => true
  | Effect.loaded _ => true
  | Effect.cleared => true
  | _ => false

/-- The toolkit calls recorded by `w2` beyond those of `w1`. -/
def logSince (w1 w2 : World) : List Effect :=
  w2.log.drop w1.log.length

/-- Whether the handler of `e`, started in `w`, completes a write, a load or
a clearing of the widget. -/
def Event.resetsAt (e : Event) (w : World) : Bool :=
  (logSince w (step e w)).any Effect.resets

/-- No event of the sequence, run from `w`, completes a write, a load or a
clearing of the widget. -/
def quiet : List Event → World → Bool
  | [], _ => true
  | e :: es, w => !(e.resetsAt w) && quiet es (step e w)

/-! ## Concrete sessions used as inputs -/

/-- A file store holding no file. -/
def emptyDisk : String → Option String := fun _ => none

/-- Every dialog is dismissed and every file open fails. -/
def envRefuse : Env :=
  { button := StandardButton.Cancel, openFileName := "", saveFileName := "",
    canWrite := fun _ => false, canRead := fun _ => false }

/-- The prompt is answered Save and no file can be opened for writing. -/
def envSaveUnwritable : Env :=
  { button := StandardButton.Save, openFileName := "", saveFileName := "",
    canWrite := fun _ => false, canRead := fun _ => true }

/-- The prompt is answered Save, every path is writable, and the open dialog
returns a path at which no file exists. -/
def envSaveThenMissing : Env :=
  { button := StandardButton.Save, openFileName := "/no/such/file", saveFileName := "",
    canWrite := fun _ => true, canRead := fun _ => true }

/-- The open dialog returns a path at which no file exists. -/
def envOpenMissing : Env :=
  { button := StandardButton.Discard, openFileName := "/no/such/file", saveFileName := "",
    canWrite := fun _ => true, canRead := fun _ => true }

/-- The save dialog returns "/tmp/a.txt" and every path is writable. -/
def envSaveAsTmp : Env :=
  { button := StandardButton.Cancel, openFileName := "", saveFileName := "/tmp/a.txt",
    canWrite := fun _ => true, canRead := fun _ => true }

/-- A modified session named "/ro/a.txt" holding the text "hello". -/
def dirtyNamed : World :=
  { win :=
      { textEdit := "hello", currentFile := "/ro/a.txt", isModified := true,
        windowModified := true, windowFilePath := "/ro/a.txt" }
    disk := emptyDisk
    log := [] }

/-- An unmodified session named "/tmp/a.txt" whose file holds "hello". -/
def cleanNamed : World :=
  { win :=
      { textEdit := "hello", currentFile := "/tmp/a.txt", isModified := false,
        windowModified := false, windowFilePath := "/tmp/a.txt" }
    disk := writeAll emptyDisk "/tmp/a.txt" "hello"
    log := [] }

/-- The session `cleanNamed` after the user changed the text to "hello!". -/
def dirtyTmp : World := editText "hello!" cleanNamed

/-- The prompt is answered Discard, the open dialog returns a path at which
the file cannot be read, and nothing is writable. -/
def envDiscardUnreadable : Env :=
  { button := StandardButton.Discard, openFileName := "/no/such/file",
    saveFileName := "/ro/c.txt", canWrite := fun _ => false, canRead := fun _ => false }

/-- A trace of failed writes, a failed read and cancelled dialogs. -/
def failingTrace : List Event :=
  [Event.saveFileSlot envSaveUnwritable, Event.saveAsFile envRefuse,
    Event.saveAsFile envDiscardUnreadable, Event.newFile envRefuse,
    Event.openFile envRefuse, Event.openFile envDiscardUnreadable,
    Event.openFile envSaveUnwritable, Event.edit "hello again"]

/-- A handler result `w2` extends the record of `w` by calls that, unless one
of them is a completed write, load or clearing, leave the window state
untouched. -/
def Extends (w w2 : World) : Prop :=
  ∃ l : List Effect, w2.log = w.log ++ l ∧
    (l.any Effect.resets = false → w2.win = w.win)

/-! ## Auxiliary facts -/

theorem logSince_append (w : World) (l : List Effect) (w2 : World)
    (h : w2.log = w.log ++ l) : logSince w w2 = l := by
  simp [logSince, h]

theorem saveFile_refused (env : Env) (fileName : String) (w : World)
    (h : env.canWrite fileName = false) :
    saveFile env fileName w = (false, w.emit [Effect.writeWarning fileName]) := by
  simp [saveFile, h]

theorem saveFile_done (env : Env) (fileName : String) (w : World)
    (h : env.canWrite fileName = true) :
    saveFile env fileName w =
      (true,
        { win := setCurrentFile fileName w.win
          disk := writeAll w.disk fileName w.win.textEdit
          log := w.log ++
            [Effect.wrote fileName w.win.textEdit, Effect.statusMessage "File saved"] }) := by
  simp [saveFile, h]

theorem loadFile_refused (env : Env) (fileName : String) (w : World)
    (h : readAll env w.disk fileName = none) :
    loadFile env fileName w = w.emit [Effect.readWarning fileName] := by
  simp [loadFile, h]

theorem maybeSave_clean (env : Env) (w : World) (h : w.win.isModified = false) :
    maybeSave env w = (true, w) := by
  simp [maybeSave, h]

theorem maybeSave_cancel (env : Env) (w : World) (hm : w.win.isModified = true)
    (hc : env.button = StandardButton.Cancel) :
    maybeSave env w = (false, w.emit [Effect.discardPrompt]) := by
  simp [maybeSave, hm, hc]

theorem maybeSave_discard (env : Env) (w : World) (hm : w.win.isModified = true)
    (hc : env.button = StandardButton.Discard) :
    maybeSave env w = (true, w.emit [Effect.discardPrompt]) := by
  simp [maybeSave, hm, hc]

theorem maybeSave_save (env : Env) (w : World) (hm : w.win.isModified = true)
    (hc : env.button = StandardButton.Save) :
    maybeSave env w = saveFileSlot env (w.emit [Effect.discardPrompt]) := by
  simp [maybeSave, hm, hc]

/-! ## Reporting of write failures -/

/-- C1 (the code departs from the claim): `saveFileSlot` returns `true` on
every input.  On the modified session named "/ro/a.txt", whose file cannot be
opened for writing, `saveFile` returns `false`, nothing is written, the
warning is shown and the dirty flag stays set, yet `saveFileSlot` returns
`true`. -/
theorem saveFileSlot_returns_true_on_write_failure :
    (∀ (env : Env) (w : World), (saveFileSlot env w).1 = true) ∧
    dirtyNamed.win.currentFile ≠ "" ∧
    envSaveUnwritable.canWrite dirtyNamed.win.currentFile = false ∧
    (saveFile envSaveUnwritable dirtyNamed.win.currentFile dirtyNamed).1 = false ∧
    (saveFileSlot envSaveUnwritable dirtyNamed).1 = true ∧
    (saveFileSlot envSaveUnwritable dirtyNamed).2.disk "/ro/a.txt" = none ∧
    (saveFileSlot envSaveUnwritable dirtyNamed).2.win.isModified = true ∧
    (saveFileSlot envSaveUnwritable dirtyNamed).2.log =
      [Effect.writeWarning "/ro/a.txt"] := by
  refine ⟨?_, by decide, rfl, rfl, rfl, rfl, rfl, rfl⟩
  intro env w
  unfold saveFileSlot
  split <;> rfl

/-- C2 (the code departs from the claim): on the modified session named
"/ro/a.txt" holding "hello", with the prompt answered Save and the write
failing, `maybeSave` returns `true` and `newFile` clears the widget, resets
the path and the dirty flag, and no file holds the text. -/
theorem newFile_clears_after_failed_save :
    dirtyNamed.win.isModified = true ∧
    envSaveUnwritable.button = StandardButton.Save ∧
    envSaveUnwritable.canWrite dirtyNamed.win.currentFile = false ∧
    (maybeSave envSaveUnwritable dirtyNamed).1 = true ∧
    dirtyNamed.win.textEdit = "hello" ∧
    (newFile envSaveUnwritable dirtyNamed).win.textEdit = "" ∧
    (newFile envSaveUnwritable dirtyNamed).win.currentFile = "" ∧
    (newFile envSaveUnwritable dirtyNamed).win.isModified = false ∧
    (newFile envSaveUnwritable dirtyNamed).disk = emptyDisk ∧
    (newFile envSaveUnwritable dirtyNamed).log =
      [Effect.discardPrompt, Effect.writeWarning "/ro/a.txt", Effect.cleared] := by
  refine ⟨rfl, rfl, rfl, rfl, rfl, rfl, rfl, rfl, rfl, rfl⟩

/-- C3: when the target path cannot be opened for writing, `saveFile` returns
`false` and leaves `isModified`, `currentFile`, the whole window state and
the file store as they were; it only shows the warning. -/
theorem saveFile_failure_keeps_session (env : Env) (fileName : String) (w : World)
    (h : env.canWrite fileName = false) :
    (saveFile env fileName w).1 = false ∧
    (saveFile env fileName w).2.win.isModified = w.win.isModified ∧
    (saveFile env fileName w).2.win.currentFile = w.win.currentFile ∧
    (saveFile env fileName w).2.win = w.win ∧
    (saveFile env fileName w).2.disk = w.disk ∧
    (saveFile env fileName w).2.log = w.log ++ [Effect.writeWarning fileName] := by
  rw [saveFile_refused env fileName w h]
  exact ⟨rfl, rfl, rfl, rfl, rfl, rfl⟩

theorem saveFile_failure_keeps_session_witness :
    envSaveUnwritable.canWrite "/ro/b.txt" = false ∧
    (saveFile envSaveUnwritable "/ro/b.txt" dirtyNamed).1 = false ∧
    (saveFile envSaveUnwritable "/ro/b.txt" dirtyNamed).2.win.isModified = true ∧
    (saveFile envSaveUnwritable "/ro/b.txt" dirtyNamed).2.win.currentFile = "/ro/a.txt" :=
  have h := saveFile_failure_keeps_session envSaveUnwritable "/ro/b.txt" dirtyNamed rfl
  ⟨rfl, h.1, h.2.1, h.2.2.1⟩

/-! ## The discard gate -/

/-- C10: on a session whose `isModified` is `false`, `maybeSave` returns `true`
and leaves the window, the file store and the record of toolkit calls as they
were: no prompt is shown and nothing is saved. -/
theorem maybeSave_clean_is_transparent (env : Env) (w : World)
    (h : w.win.isModified = false) :
    (maybeSave env w).1 = true ∧
    (maybeSave env w).2 = w ∧
    logSince w (maybeSave env w).2 = [] := by
  rw [maybeSave_clean env w h]
  exact ⟨rfl, rfl, logSince_append w [] w (by simp)⟩

theorem maybeSave_clean_is_transparent_witness :
    cleanNamed.win.isModified = false ∧
    (maybeSave envSaveUnwritable cleanNamed).1 = true ∧
    (maybeSave envSaveUnwritable cleanNamed).2 = cleanNamed ∧
    logSince cleanNamed (maybeSave envSaveUnwritable cleanNamed).2 = [] :=
  ⟨rfl, maybeSave_clean_is_transparent envSaveUnwritable cleanNamed rfl⟩

/-- C5: on a modified session with the prompt answered Cancel, `newFile`,
`openFile` and `closeEvent` leave the window state (path, dirty flag, text)
and the file store unchanged, the only toolkit call is the prompt (no file
is written), and `closeEvent` ignores the close request. -/
theorem cancel_is_a_no_op (env : Env) (w : World)
    (hm : w.win.isModified = true) (hc : env.button = StandardButton.Cancel) :
    ((newFile env w).win = w.win ∧ (newFile env w).disk = w.disk ∧
      logSince w (newFile env w) = [Effect.discardPrompt]) ∧
    ((openFile env w).win = w.win ∧ (openFile env w).disk = w.disk ∧
      logSince w (openFile env w) = [Effect.discardPrompt]) ∧
    ((closeEvent env w).1 = false ∧
      (closeEvent env w).2.win = w.win ∧ (closeEvent env w).2.disk = w.disk ∧
      logSince w (closeEvent env w).2 = [Effect.discardPrompt]) := by
  have hg := maybeSave_cancel env w hm hc
  have hl : logSince w (w.emit [Effect.discardPrompt]) = [Effect.discardPrompt] :=
    logSince_append w _ _ rfl
  refine ⟨?_, ?_, ?_⟩
  · simp only [newFile, hg]
    exact ⟨rfl, rfl, hl⟩
  · simp only [openFile, hg]
    exact ⟨rfl, rfl, hl⟩
  · simp only [closeEvent, hg]
    exact ⟨rfl, rfl, rfl, hl⟩

theorem cancel_is_a_no_op_witness :
    dirtyNamed.win.isModified = true ∧
    envRefuse.button = StandardButton.Cancel ∧
    (newFile envRefuse dirtyNamed).win = dirtyNamed.win ∧
    (openFile envRefuse dirtyNamed).win = dirtyNamed.win ∧
    (closeEvent envRefuse dirtyNamed).1 = false ∧
    (closeEvent envRefuse dirtyNamed).2.win = dirtyNamed.win :=
  have h := cancel_is_a_no_op envRefuse dirtyNamed rfl rfl
  ⟨rfl, rfl, h.1.1, h.2.1.1, h.2.2.1, h.2.2.2.1⟩

/-! ## Save on an untitled document -/

/-- C9: on a session whose `currentFile` is empty, `saveFileSlot` and
`saveAsFile` give the same return value and the same resulting world (window
state, file store and toolkit calls), whatever the dialog answers and
whether the file can be opened. -/
theorem saveFileSlot_untitled_eq_saveAsFile (env : Env) (w : World)
    (h : w.win.currentFile = "") :
    saveFileSlot env w = saveAsFile env w := by
  unfold saveFileSlot
  rw [if_pos h]
  unfold saveAsFile
  by_cases hn : env.saveFileName = "" <;> simp [hn]

theorem saveFileSlot_untitled_eq_saveAsFile_witness :
    (initialWorld emptyDisk).win.currentFile = "" ∧
    saveFileSlot envSaveAsTmp (editText "hello" (initialWorld emptyDisk)) =
      saveAsFile envSaveAsTmp (editText "hello" (initialWorld emptyDisk)) :=
  ⟨rfl, saveFileSlot_untitled_eq_saveAsFile envSaveAsTmp
    (editText "hello" (initialWorld emptyDisk)) rfl⟩

/-! ## Failed reads -/

/-- C4, as stated, fails: on the modified session named "/tmp/a.txt" with the
prompt answered Save and the open dialog returning "/no/such/file", a path at
which no file exists before, during or after the call, `openFile` first saves
through the gate, so `isModified` changes from `true` to `false` although the
read fails. -/
theorem openFile_failed_read_after_gate_save_changes_flag :
    readAll envSaveThenMissing dirtyTmp.disk "/no/such/file" = none ∧
    readAll envSaveThenMissing (maybeSave envSaveThenMissing dirtyTmp).2.disk
      "/no/such/file" = none ∧
    readAll envSaveThenMissing (openFile envSaveThenMissing dirtyTmp).disk
      "/no/such/file" = none ∧
    envSaveThenMissing.openFileName = "/no/such/file" ∧
    dirtyTmp.win.isModified = true ∧
    (openFile envSaveThenMissing dirtyTmp).win.isModified = false ∧
    (openFile envSaveThenMissing dirtyTmp).win.isModified ≠ dirtyTmp.win.isModified ∧
    (openFile envSaveThenMissing dirtyTmp).log =
      [Effect.discardPrompt, Effect.wrote "/tmp/a.txt" "hello!",
        Effect.statusMessage "File saved", Effect.openDialog,
        Effect.readWarning "/no/such/file"] := by
  refine ⟨rfl, rfl, rfl, rfl, rfl, rfl, by decide, rfl⟩

/-- C4, amended: when `fileName` cannot be opened for reading, `loadFile`
leaves the window state (path, dirty flag, text) and the file store unchanged
and only shows the warning; `openFile` with that path chosen leaves them
unchanged when the session is unmodified or the prompt is not answered Save;
and in every case in which the read fails after the gate, `openFile` leaves
the window state and the file store as `maybeSave` left them. -/
theorem failed_read_keeps_gate_state (env : Env) (fileName : String) (w : World)
    (h : readAll env w.disk fileName = none) :
    ((loadFile env fileName w).win = w.win ∧
      (loadFile env fileName w).disk = w.disk ∧
      (loadFile env fileName w).log = w.log ++ [Effect.readWarning fileName]) ∧
    (env.openFileName = fileName →
      (w.win.isModified = false ∨ env.button ≠ StandardButton.Save) →
      (openFile env w).win = w.win ∧ (openFile env w).disk = w.disk) ∧
    (env.openFileName = fileName →
      readAll env (maybeSave env w).2.disk fileName = none →
      (openFile env w).win = (maybeSave env w).2.win ∧
      (openFile env w).disk = (maybeSave env w).2.disk) := by
  have key : ∀ g : World, env.openFileName = fileName →
      readAll env g.disk fileName = none →
      (if env.openFileName ≠ "" then
          loadFile env env.openFileName (g.emit [Effect.openDialog])
        else g.emit [Effect.openDialog]).win = g.win ∧
      (if env.openFileName ≠ "" then
          loadFile env env.openFileName (g.emit [Effect.openDialog])
        else g.emit [Effect.openDialog]).disk = g.disk := by
    intro g hf hg
    by_cases hn : env.openFileName = ""
    · simp [hn, World.emit]
    · have hg2 : readAll env (g.emit [Effect.openDialog]).disk env.openFileName = none := by
        rw [hf]; exact hg
      rw [if_pos hn, loadFile_refused env _ _ hg2]
      exact ⟨rfl, rfl⟩
  have gate : ∀ hf : env.openFileName = fileName,
      readAll env (maybeSave env w).2.disk fileName = none →
      (openFile env w).win = (maybeSave env w).2.win ∧
      (openFile env w).disk = (maybeSave env w).2.disk := by
    intro hf hg
    unfold openFile
    by_cases hr : (maybeSave env w).1 = true
    · simp only [hr, if_true]
      exact key _ hf hg
    · simp only [hr]
      exact ⟨rfl, rfl⟩
  refine ⟨?_, ?_, gate⟩
  · rw [loadFile_refused env fileName w h]
    exact ⟨rfl, rfl, rfl⟩
  · intro hf hc
    have same : (maybeSave env w).2.win = w.win ∧ (maybeSave env w).2.disk = w.disk := by
      by_cases hm : w.win.isModified = false
      · rw [maybeSave_clean env w hm]
        exact ⟨rfl, rfl⟩
      · have hm2 : w.win.isModified = true := by simpa using hm
        rcases hc with hc | hc
        · exact absurd hc hm
        · cases hb : env.button with
          | Save => exact absurd hb hc
          | Discard =>
            rw [maybeSave_discard env w hm2 hb]
            exact ⟨rfl, rfl⟩
          | Cancel =>
            rw [maybeSave_cancel env w hm2 hb]
            exact ⟨rfl, rfl⟩
    have hg : readAll env (maybeSave env w).2.disk fileName = none := by
      rw [same.2]; exact h
    have r := gate hf hg
    exact ⟨r.1.trans same.1, r.2.trans same.2⟩

theorem failed_read_keeps_gate_state_witness :
    readAll envOpenMissing (initialWorld emptyDisk).disk "/no/such/file" = none ∧
    (openFile envOpenMissing (initialWorld emptyDisk)).win = (initialWorld emptyDisk).win ∧
    (initialWorld emptyDisk).win.currentFile = "" ∧
    (initialWorld emptyDisk).win.isModified = false ∧
    readAll envSaveThenMissing dirtyTmp.disk "/no/such/file" = none ∧
    (openFile envSaveThenMissing dirtyTmp).win =
      (maybeSave envSaveThenMissing dirtyTmp).2.win :=
  ⟨rfl,
    ((failed_read_keeps_gate_state envOpenMissing "/no/such/file"
      (initialWorld emptyDisk) rfl).2.1 rfl (Or.inl rfl)).1,
    rfl, rfl, rfl,
    ((failed_read_keeps_gate_state envSaveThenMissing "/no/such/file"
      dirtyTmp rfl).2.2 rfl rfl).1⟩

/-! ## Round trip and save-as -/

/-- C6: for every text in the widget and every path `P` that can be opened
for writing and then for reading, `saveFile` to `P` succeeds and stores the
text at `P`; `loadFile` of `P`, run right after the save or later in any
world `w2` (any window state, any record) whose file at `P` is still the
one saved, puts exactly the saved text into the widget, with
`currentFile = P` and `isModified = false`, and leaves the file store as
it found it. -/
theorem save_then_load_round_trip (envS envL : Env) (P : String) (w w2 : World)
    (hw : envS.canWrite P = true) (hr : envL.canRead P = true)
    (hd : w2.disk P = (saveFile envS P w).2.disk P) :
    (saveFile envS P w).1 = true ∧
    (saveFile envS P w).2.disk P = some w.win.textEdit ∧
    (saveFile envS P w).2.win.textEdit = w.win.textEdit ∧
    ((loadFile envL P (saveFile envS P w).2).win.textEdit = w.win.textEdit ∧
      (loadFile envL P (saveFile envS P w).2).win.currentFile = P ∧
      (loadFile envL P (saveFile envS P w).2).win.isModified = false) ∧
    ((loadFile envL P w2).win.textEdit = w.win.textEdit ∧
      (loadFile envL P w2).win.currentFile = P ∧
      (loadFile envL P w2).win.isModified = false ∧
      (loadFile envL P w2).win =
        { textEdit := w.win.textEdit, currentFile := P, isModified := false,
          windowModified := false,
          windowFilePath := if P = "" then "untitled.txt" else P } ∧
      (loadFile envL P w2).disk = w2.disk ∧
      (loadFile envL P w2).log =
        w2.log ++ [Effect.loaded P, Effect.statusMessage "File loaded"]) := by
  have hsaved : (saveFile envS P w).2.disk P = some w.win.textEdit := by
    rw [saveFile_done envS P w hw]
    simp [writeAll]
  have hread : ∀ g : World, g.disk P = some w.win.textEdit →
      loadFile envL P g =
        { win := setCurrentFile P (contentsChanged { g.win with textEdit := w.win.textEdit })
          disk := g.disk
          log := g.log ++ [Effect.loaded P, Effect.statusMessage "File loaded"] } := by
    intro g hg
    have hra : readAll envL g.disk P = some w.win.textEdit := by
      simp [readAll, hr, hg]
    unfold loadFile
    rw [hra]
  have h1 := hread (saveFile envS P w).2 hsaved
  have h2 := hread w2 (hd.trans hsaved)
  refine ⟨?_, hsaved, ?_, ?_, ?_⟩
  · rw [saveFile_done envS P w hw]
  · rw [saveFile_done envS P w hw]
    rfl
  · rw [h1]
    exact ⟨rfl, rfl, rfl⟩
  · rw [h2]
    exact ⟨rfl, rfl, rfl, rfl, rfl, rfl⟩

theorem save_then_load_round_trip_witness :
    envSaveAsTmp.canWrite "/tmp/b.txt" = true ∧
    envOpenMissing.canRead "/tmp/b.txt" = true ∧
    (newFile envRefuse (saveFile envSaveAsTmp "/tmp/b.txt" dirtyTmp).2).disk "/tmp/b.txt" =
      (saveFile envSaveAsTmp "/tmp/b.txt" dirtyTmp).2.disk "/tmp/b.txt" ∧
    dirtyTmp.win.textEdit = "hello!" ∧
    (newFile envRefuse (saveFile envSaveAsTmp "/tmp/b.txt" dirtyTmp).2).win.textEdit = "" ∧
    (newFile envRefuse (saveFile envSaveAsTmp "/tmp/b.txt" dirtyTmp).2).win.currentFile = "" ∧
    (loadFile envOpenMissing "/tmp/b.txt"
      (newFile envRefuse (saveFile envSaveAsTmp "/tmp/b.txt" dirtyTmp).2)).win.textEdit =
        "hello!" ∧
    (loadFile envOpenMissing "/tmp/b.txt"
      (newFile envRefuse (saveFile envSaveAsTmp "/tmp/b.txt" dirtyTmp).2)).win.currentFile =
        "/tmp/b.txt" ∧
    (loadFile envOpenMissing "/tmp/b.txt"
      (newFile envRefuse (saveFile envSaveAsTmp "/tmp/b.txt" dirtyTmp).2)).win.isModified =
        false :=
  have h := save_then_load_round_trip envSaveAsTmp envOpenMissing "/tmp/b.txt" dirtyTmp
    (newFile envRefuse (saveFile envSaveAsTmp "/tmp/b.txt" dirtyTmp).2) rfl rfl rfl
  ⟨rfl, rfl, rfl, rfl, rfl, rfl, h.2.2.2.2.1, h.2.2.2.2.2.1, h.2.2.2.2.2.2.1⟩

/-- C8: when the save dialog returns a path `P` that can be opened for
writing, `saveAsFile` stores the text of the widget at `P` and ends with
`currentFile = P`, `isModified = false` and the text unchanged; a
`closeEvent` issued next, whatever the outside would answer, is accepted and
its only toolkit call is `writeSettings`: no prompt is shown. -/
theorem saveAsFile_then_close (env envC : Env) (w : World)
    (hp : env.saveFileName ≠ "") (hw : env.canWrite env.saveFileName = true) :
    (saveAsFile env w).1 = true ∧
    (saveAsFile env w).2.disk env.saveFileName = some w.win.textEdit ∧
    (saveAsFile env w).2.win.textEdit = w.win.textEdit ∧
    (saveAsFile env w).2.win.currentFile = env.saveFileName ∧
    (saveAsFile env w).2.win.isModified = false ∧
    (closeEvent envC (saveAsFile env w).2).1 = true ∧
    (closeEvent envC (saveAsFile env w).2).2.win = (saveAsFile env w).2.win ∧
    (closeEvent envC (saveAsFile env w).2).2.disk = (saveAsFile env w).2.disk ∧
    logSince (saveAsFile env w).2 (closeEvent envC (saveAsFile env w).2).2 =
      [Effect.settingsWritten] := by
  have hs : (saveAsFile env w).2 =
      { win := setCurrentFile env.saveFileName w.win
        disk := writeAll w.disk env.saveFileName w.win.textEdit
        log := (w.log ++ [Effect.saveDialog]) ++
          [Effect.wrote env.saveFileName w.win.textEdit,
            Effect.statusMessage "File saved"] } := by
    unfold saveAsFile
    simp only []
    rw [saveFile_done env _ _ hw, if_pos hp]
    rfl
  have hclean : (saveAsFile env w).2.win.isModified = false := by
    rw [hs]; rfl
  have hclose : closeEvent envC (saveAsFile env w).2 =
      (true, (saveAsFile env w).2.emit [Effect.settingsWritten]) := by
    unfold closeEvent
    rw [maybeSave_clean envC _ hclean]
    rfl
  refine ⟨?_, ?_, ?_, ?_, hclean, ?_, ?_, ?_, ?_⟩
  · unfold saveAsFile
    by_cases hn : env.saveFileName = "" <;> simp [hn]
  · rw [hs]; simp [writeAll]
  · rw [hs]; rfl
  · rw [hs]; rfl
  · rw [hclose]
  · rw [hclose]; rfl
  · rw [hclose]; rfl
  · rw [hclose]; exact logSince_append _ _ _ rfl

theorem saveAsFile_then_close_witness :
    (initialWorld emptyDisk).win.currentFile = "" ∧
    (initialWorld emptyDisk).win.isModified = false ∧
    (editText "hello" (initialWorld emptyDisk)).win.isModified = true ∧
    envSaveAsTmp.saveFileName = "/tmp/a.txt" ∧
    envSaveAsTmp.canWrite "/tmp/a.txt" = true ∧
    (saveAsFile envSaveAsTmp (editText "hello" (initialWorld emptyDisk))).2.disk
      "/tmp/a.txt" = some "hello" ∧
    (saveAsFile envSaveAsTmp (editText "hello" (initialWorld emptyDisk))).2.win.currentFile =
      "/tmp/a.txt" ∧
    (saveAsFile envSaveAsTmp (editText "hello" (initialWorld emptyDisk))).2.win.isModified =
      false ∧
    (closeEvent envRefuse
      (saveAsFile envSaveAsTmp (editText "hello" (initialWorld emptyDisk))).2).1 = true ∧
    logSince (saveAsFile envSaveAsTmp (editText "hello" (initialWorld emptyDisk))).2
      (closeEvent envRefuse
        (saveAsFile envSaveAsTmp (editText "hello" (initialWorld emptyDisk))).2).2 =
      [Effect.settingsWritten] :=
  have h := saveAsFile_then_close envSaveAsTmp envRefuse
    (editText "hello" (initialWorld emptyDisk)) (by decide) rfl
  ⟨rfl, rfl, rfl, rfl, rfl, h.2.1, h.2.2.2.1, h.2.2.2.2.1, h.2.2.2.2.2.1,
    h.2.2.2.2.2.2.2.2⟩

/-! ## The dirty flag over event traces -/

theorem Extends.refl (w : World) : Extends w w :=
  ⟨[], by simp, fun _ => rfl⟩

theorem Extends.emit (w : World) (e : Effect) : Extends w (w.emit [e]) :=
  ⟨[e], rfl, fun _ => rfl⟩

theorem Extends.trans (w1 w2 w3 : World) (h12 : Extends w1 w2) (h23 : Extends w2 w3) :
    Extends w1 w3 := by
  obtain ⟨l1, hl1, hw1⟩ := h12
  obtain ⟨l2, hl2, hw2⟩ := h23
  refine ⟨l1 ++ l2, by rw [hl2, hl1, List.append_assoc], ?_⟩
  intro hq
  rw [List.any_append, Bool.or_eq_false_iff] at hq
  rw [hw2 hq.2, hw1 hq.1]

theorem Extends.keeps_dirty (w w2 : World) (h : Extends w w2)
    (hq : (logSince w w2).any Effect.resets = false) : w2.win = w.win := by
  obtain ⟨l, hl, hw⟩ := h
  rw [logSince_append w l w2 hl] at hq
  exact hw hq

theorem saveFile_extends (env : Env) (fileName : String) (w : World) :
    Extends w (saveFile env fileName w).2 := by
  by_cases h : env.canWrite fileName = true
  · rw [saveFile_done env fileName w h]
    exact ⟨_, rfl, by simp [Effect.resets]⟩
  · have h2 : env.canWrite fileName = false := by simpa using h
    rw [saveFile_refused env fileName w h2]
    exact Extends.emit w _

theorem loadFile_extends (env : Env) (fileName : String) (w : World) :
    Extends w (loadFile env fileName w) := by
  cases h : readAll env w.disk fileName with
  | none =>
    rw [loadFile_refused env fileName w h]
    exact Extends.emit w _
  | some text =>
    unfold loadFile
    rw [h]
    exact ⟨_, rfl, by simp [Effect.resets]⟩

theorem saveAsFile_extends (env : Env) (w : World) :
    Extends w (saveAsFile env w).2 := by
  have h1 : Extends w (w.emit [Effect.saveDialog]) := Extends.emit w _
  unfold saveAsFile
  by_cases hn : env.saveFileName = ""
  · simpa [hn] using h1
  · simp only []
    rw [if_pos hn]
    exact Extends.trans _ _ _ h1 (saveFile_extends env _ _)

theorem saveFileSlot_extends (env : Env) (w : World) :
    Extends w (saveFileSlot env w).2 := by
  unfold saveFileSlot
  by_cases hn : w.win.currentFile = ""
  · rw [if_pos hn]
    exact saveAsFile_extends env w
  · rw [if_neg hn]
    exact saveFile_extends env _ w

theorem maybeSave_extends (env : Env) (w : World) :
    Extends w (maybeSave env w).2 := by
  by_cases hm : w.win.isModified = false
  · rw [maybeSave_clean env w hm]
    exact Extends.refl w
  · have hm2 : w.win.isModified = true := by simpa using hm
    have h1 : Extends w (w.emit [Effect.discardPrompt]) := Extends.emit w _
    cases hb : env.button with
    | Save =>
      rw [maybeSave_save env w hm2 hb]
      exact Extends.trans _ _ _ h1 (saveFileSlot_extends env _)
    | Discard =>
      rw [maybeSave_discard env w hm2 hb]
      exact h1
    | Cancel =>
      rw [maybeSave_cancel env w hm2 hb]
      exact h1

theorem newFile_extends (env : Env) (w : World) : Extends w (newFile env w) := by
  unfold newFile
  by_cases hr : (maybeSave env w).1 = true
  · simp only [hr, if_true]
    refine Extends.trans _ _ _ (maybeSave_extends env w) ?_
    exact ⟨_, rfl, by simp [Effect.resets]⟩
  · simp only [hr]
    exact maybeSave_extends env w

theorem openFile_extends (env : Env) (w : World) : Extends w (openFile env w) := by
  unfold openFile
  by_cases hr : (maybeSave env w).1 = true
  · simp only [hr, if_true]
    refine Extends.trans _ _ _ (maybeSave_extends env w) ?_
    have h1 : Extends (maybeSave env w).2 ((maybeSave env w).2.emit [Effect.openDialog]) :=
      Extends.emit _ _
    by_cases hn : env.openFileName = ""
    · simpa [hn] using h1
    · rw [if_pos hn]
      exact Extends.trans _ _ _ h1 (loadFile_extends env _ _)
  · simp only [hr]
    exact maybeSave_extends env w

theorem step_keeps_dirty (e : Event) (w : World) (hm : w.win.isModified = true)
    (hq : e.resetsAt w = false) : (step e w).win.isModified = true := by
  cases e with
  | edit text => rfl
  | newFile env =>
    show (newFile env w).win.isModified = true
    rw [Extends.keeps_dirty w _ (newFile_extends env w) hq]; exact hm
  | openFile env =>
    show (openFile env w).win.isModified = true
    rw [Extends.keeps_dirty w _ (openFile_extends env w) hq]; exact hm
  | saveFileSlot env =>
    show (saveFileSlot env w).2.win.isModified = true
    rw [Extends.keeps_dirty w _ (saveFileSlot_extends env w) hq]; exact hm
  | saveAsFile env =>
    show (saveAsFile env w).2.win.isModified = true
    rw [Extends.keeps_dirty w _ (saveAsFile_extends env w) hq]; exact hm

theorem quiet_run_keeps_dirty (es : List Event) (w : World)
    (hm : w.win.isModified = true) (hq : quiet es w = true) (n : Nat) :
    (run (es.take n) w).win.isModified = true := by
  induction es generalizing w n with
  | nil => simpa [run] using hm
  | cons e es ih =>
    cases n with
    | zero => simpa [run] using hm
    | succ n =>
      simp only [quiet, Bool.and_eq_true, Bool.not_eq_true_eq_eq_false] at hq
      have h1 := step_keeps_dirty e w hm hq.1
      have h2 := ih (step e w) h1 hq.2 n
      simpa [run] using h2

/-- C7: after any buffer edit `isModified` is `true`, and it is still `true`
after every further event of any sequence of edit, new, open, save and
save-as events (each with any dialog answers and any outcome of opening
files), as long as none of these events completes a write, completes a load
or clears the widget for a new document. -/
theorem dirty_flag_invariant (text : String) (es : List Event) (w : World)
    (hq : quiet es (step (Event.edit text) w) = true) :
    (step (Event.edit text) w).win.isModified = true ∧
    ∀ n : Nat, (run (es.take n) (step (Event.edit text) w)).win.isModified = true :=
  ⟨rfl, fun n => quiet_run_keeps_dirty es _ rfl hq n⟩

theorem dirty_flag_invariant_witness :
    quiet failingTrace (step (Event.edit "hello") cleanNamed) = true ∧
    cleanNamed.win.isModified = false ∧
    (step (Event.edit "hello") cleanNamed).win.isModified = true ∧
    (run failingTrace (step (Event.edit "hello") cleanNamed)).win.isModified = true :=
  have hq : quiet failingTrace (step (Event.edit "hello") cleanNamed) = true := by decide
  have h := dirty_flag_invariant "hello" failingTrace cleanNamed hq
  ⟨hq, rfl, h.1, h.2 failingTrace.length⟩

end TextEditor
